import Mathlib

/-!
Shallow embedding of the multi-tenant WhatsApp auto-reply bot service
(`src/bot/bot.service.ts`, the multi-tenant per-chat-state variant of
`BotService`), together with proofs about its dispatcher and session
lifecycle.

The external messaging client is opaque: a client handle is a `Nat`
allocated freshly per session.  Outbound sends and emitted lifecycle
events are returned explicitly as lists.  The relational store (Prisma)
is a read-only environment value queried with `findFirst`.
-/

namespace TriggerBot

/-- A row of the `messages` table as used by `handleMessage`:
`prisma.messages.findFirst` filters on `enterpriseId`, `available` and a
case-insensitive match on `trigger`; the handler reads `body` and
`ending`. -/
structure ReplyRecord where
  enterpriseId : String
  available : Bool
  trigger : String
  body : String
  ending : Bool
deriving DecidableEq, Repr

/-- A row of the `prompt` table: `prisma.prompt.findFirst` filters on
`enterpriseId` and `available`; the handler reads `body`. -/
structure PromptRecord where
  enterpriseId : String
  available : Bool
  body : String
deriving DecidableEq, Repr

/-- The relational store visible to the service: the `prompt` and
`messages` tables, in database order (`findFirst` returns the first
matching row). -/
structure Db where
  prompts : List PromptRecord
  messages : List ReplyRecord
deriving DecidableEq, Repr

/-- `prisma.prompt.findFirst` with `where: enterpriseId, available: true`. -/
def Db.promptFindFirst (db : Db) (enterpriseId : String) : Option PromptRecord :=
  db.prompts.find? fun p => p.enterpriseId == enterpriseId && p.available

/-- Lower-cased code point of a character: uppercase letters `A`–`Z`
(code points 65–90) map to their lowercase counterparts. -/
def lowerCodePoint (n : Nat) : Nat :=
  if 65 ≤ n ∧ n ≤ 90 then n + 32 else n

/-- Case-insensitive string equality, Prisma insensitive mode:
the strings agree after lower-casing. -/
def insensitiveEq (a b : String) : Bool :=
  a.data.map (fun c => lowerCodePoint c.toNat) == b.data.map (fun c => lowerCodePoint c.toNat)

/-- `prisma.messages.findFirst` with `where: enterpriseId,
available: true, trigger: equals body, insensitive mode`. -/
def Db.messagesFindFirst (db : Db) (enterpriseId : String) (body : String) :
    Option ReplyRecord :=
  db.messages.find? fun r =>
    r.enterpriseId == enterpriseId && r.available && insensitiveEq r.trigger body

/-- An in-memory `Map<string, α>` modelled extensionally as a partial
function from keys to values. -/
def Store (α : Type) : Type := String → Option α

/-- `map.get(k)`. -/
def Store.get (m : Store α) (k : String) : Option α := m k

/-- `map.set(k, v)`. -/
def Store.set (m : Store α) (k : String) (v : α) : Store α :=
  fun x => if x = k then some v else m x

/-- `map.delete(k)`. -/
def Store.del (m : Store α) (k : String) : Store α :=
  fun x => if x = k then none else m x

/-- `new Map()`, and also the result of `map.clear()`. -/
def Store.empty : Store α := fun _ => none

/-- Per-end-user (chatId) conversation state, `UserChatState` in the
source: the last message the bot sent to this user and the count of
messages in this user flow. -/
structure UserChatState where
  lastMessageBody : Option String
  messageCount : Nat
deriving DecidableEq, Repr

/-- The fresh state `lastMessageBody: null, messageCount: 0` created
lazily on the first inbound message of a chat. -/
def UserChatState.initial : UserChatState :=
  { lastMessageBody := none, messageCount := 0 }

/-- Per-tenant `ClientState`: `userStates : Map<chatId, UserChatState>`
and `endingFlags : Map<chatId, boolean>`. -/
structure ClientState where
  userStates : Store UserChatState
  endingFlags : Store Bool

/-- The `ClientState` installed by `initializeClient`: two empty maps. -/
def ClientState.initial : ClientState :=
  { userStates := Store.empty, endingFlags := Store.empty }

/-- The mutable fields of `BotService`: `clients : Map<string, Client>`
(client handles are opaque, modelled as `Nat` with a freshness counter)
and `clientStates : Map<string, ClientState>`. -/
structure BotState where
  clients : Store Nat
  clientStates : Store ClientState
  nextClient : Nat

/-- The service state at construction: both maps empty. -/
def BotState.initial : BotState :=
  { clients := Store.empty, clientStates := Store.empty, nextClient := 0 }

/-- Lifecycle events published through the `EventEmitter2`. -/
inductive Event where
  | qrcodeCreated (enterpriseId : String) (qr : String)
  | clientReady (enterpriseId : String)
  | clientDisconnected (enterpriseId : String)
deriving DecidableEq, Repr

/-- An inbound message as seen by the `message` callback: sender chat id
(`msg.from`), body, and the `fromMe` flag. -/
structure Msg where
  msgFrom : String
  body : String
  fromMe : Bool
deriving DecidableEq, Repr

/-- Result of `initializeClient`: the updated service state, the returned
`Client | null`, the events emitted, and whether `deleteSessionData` was
invoked. -/
structure InitResult where
  state : BotState
  client : Option Nat
  events : List Event
  deletedSession : Bool

/-- Result of `disconnectClient` (and of the `disconnected` /
`auth_failure` callbacks, which call it). -/
structure DisconnectResult where
  state : BotState
  events : List Event
  deletedSession : Bool

/-- `initializeClient(enterpriseId)`.  If a client already exists it is
returned unchanged.  Otherwise a fresh client handle and a fresh
`ClientState` are installed; `initOk` is the outcome of
`client.initialize()` — on failure the `catch` block removes both map
entries, deletes the session data and emits `client.disconnected`,
returning `null`. -/
def initializeClient (st : BotState) (enterpriseId : String) (initOk : Bool) :
    InitResult :=
  match st.clients.get enterpriseId with
  | some client => { state := st, client := some client, events := [], deletedSession := false }
  | none =>
    let client := st.nextClient
    let st1 : BotState :=
      { clients := st.clients.set enterpriseId client
        clientStates := st.clientStates.set enterpriseId ClientState.initial
        nextClient := st.nextClient + 1 }
    if initOk then
      { state := st1, client := some client, events := [], deletedSession := false }
    else
      { state :=
          { clients := st1.clients.del enterpriseId
            clientStates := st1.clientStates.del enterpriseId
            nextClient := st1.nextClient }
        client := none
        events := [Event.clientDisconnected enterpriseId]
        deletedSession := true }

/-- `handleMessage(enterpriseId, msg)`.  Returns the updated service
state and the list of outbound sends `(chatId, body)` (a successful
`msg.reply` is one send; the error/fallback paths for failed sends are
outside this embedding, which models sends as succeeding).  The `finally`
block always writes the user state back into `userStates`, including on
the early-return paths. -/
def handleMessage (db : Db) (st : BotState) (enterpriseId : String) (msg : Msg) :
    BotState × List (String × String) :=
  if msg.fromMe || msg.msgFrom == "status@broadcast" then (st, [])
  else
    match st.clientStates.get enterpriseId, st.clients.get enterpriseId with
    | some clientState, some _currentClient =>
      let chatId := msg.msgFrom
      let userState := (clientState.userStates.get chatId).getD UserChatState.initial
      let isEnding := (clientState.endingFlags.get chatId).getD false
      if userState.messageCount == 0 || isEnding then
        match db.promptFindFirst enterpriseId with
        | none =>
          -- "No prompt found.": early return; `finally` still stores `userState` back
          let clientState' :=
            { clientState with userStates := clientState.userStates.set chatId userState }
          ({ st with clientStates := st.clientStates.set enterpriseId clientState' }, [])
        | some prompt =>
          let userState' : UserChatState :=
            { messageCount := 1, lastMessageBody := some prompt.body }
          let clientState' : ClientState :=
            { userStates := clientState.userStates.set chatId userState'
              endingFlags := clientState.endingFlags.set chatId false }
          ({ st with clientStates := st.clientStates.set enterpriseId clientState' },
            [(chatId, prompt.body)])
      else
        match db.messagesFindFirst enterpriseId msg.body with
        | none =>
          let clientState' :=
            { clientState with userStates := clientState.userStates.set chatId userState }
          let st' := { st with clientStates := st.clientStates.set enterpriseId clientState' }
          match userState.lastMessageBody with
          | some lastSentMessage => (st', [(chatId, lastSentMessage)])
          | none => (st', [])
        | some reply =>
          let userState' : UserChatState :=
            { messageCount := userState.messageCount + 1, lastMessageBody := some reply.body }
          let clientState' : ClientState :=
            { userStates := clientState.userStates.set chatId userState'
              endingFlags := clientState.endingFlags.set chatId (reply.ending == true) }
          ({ st with clientStates := st.clientStates.set enterpriseId clientState' },
            [(chatId, reply.body)])
    | _, _ => (st, [])

set_option linter.unusedVariables false in
/-- `disconnectClient(enterpriseId)`.  `destroyOk` is the outcome of
`client.destroy()`; a raised error is caught and logged, and the
`finally` block runs either way: emit `client.disconnected`, delete both
map entries, call `deleteSessionData`.  With no client the call is a
logged no-op. -/
def disconnectClient (st : BotState) (enterpriseId : String) (destroyOk : Bool) :
    DisconnectResult :=
  match st.clients.get enterpriseId with
  | none => { state := st, events := [], deletedSession := false }
  | some _client =>
    -- try destroy/logout, catch and log: `destroyOk` does not affect the outcome
    { state :=
        { clients := st.clients.del enterpriseId
          clientStates := st.clientStates.del enterpriseId
          nextClient := st.nextClient }
      events := [Event.clientDisconnected enterpriseId]
      deletedSession := true }

/-- The `ready` callback: clear the tenant `endingFlags` map (when its
`ClientState` exists) and emit `client.ready`. -/
def onReady (st : BotState) (enterpriseId : String) : BotState × List Event :=
  let st' :=
    match st.clientStates.get enterpriseId with
    | some clientState =>
      { st with clientStates :=
          st.clientStates.set enterpriseId { clientState with endingFlags := Store.empty } }
    | none => st
  (st', [Event.clientReady enterpriseId])

/-- The `qr` callback: emit `qrcode.created` with the raw payload. -/
def onQr (st : BotState) (enterpriseId qr : String) : BotState × List Event :=
  (st, [Event.qrcodeCreated enterpriseId qr])

/-- The `disconnected` callback: emit `client.disconnected`, then call
`disconnectClient`. -/
def onDisconnected (st : BotState) (enterpriseId : String) (destroyOk : Bool) :
    DisconnectResult :=
  let r := disconnectClient st enterpriseId destroyOk
  { r with events := Event.clientDisconnected enterpriseId :: r.events }

/-- The `auth_failure` callback: emit `client.disconnected`, then call
`disconnectClient`. -/
def onAuthFailure (st : BotState) (enterpriseId : String) (destroyOk : Bool) :
    DisconnectResult :=
  let r := disconnectClient st enterpriseId destroyOk
  { r with events := Event.clientDisconnected enterpriseId :: r.events }

/-! Observations on the conversation-state table, at the level the
dispatcher itself reads it (lookup with the lazily-created default). -/

/-- The stored `UserChatState` entry of a (tenant, chat) pair, if any. -/
def lookupUserState (st : BotState) (enterpriseId chatId : String) :
    Option UserChatState :=
  (st.clientStates.get enterpriseId).bind fun cs => cs.userStates.get chatId

/-- The message count a (tenant, chat) pair reads as (0 when untracked). -/
def lookupCount (st : BotState) (enterpriseId chatId : String) : Nat :=
  match st.clientStates.get enterpriseId with
  | some cs => ((cs.userStates.get chatId).getD UserChatState.initial).messageCount
  | none => 0

/-- The last-sent body a (tenant, chat) pair reads as (null when untracked). -/
def lookupLast (st : BotState) (enterpriseId chatId : String) : Option String :=
  match st.clientStates.get enterpriseId with
  | some cs => ((cs.userStates.get chatId).getD UserChatState.initial).lastMessageBody
  | none => none

/-- The ending flag a (tenant, chat) pair reads as (false when absent,
`?? false` in the source). -/
def lookupEnding (st : BotState) (enterpriseId chatId : String) : Bool :=
  match st.clientStates.get enterpriseId with
  | some cs => (cs.endingFlags.get chatId).getD false
  | none => false

/-! A step relation over the service: every externally triggered
operation, used to state invariants over all reachable states. -/

/-- One externally triggered operation on the service. -/
inductive Op where
  | init (enterpriseId : String) (initOk : Bool)
  | message (db : Db) (enterpriseId : String) (msg : Msg)
  | ready (enterpriseId : String)
  | qr (enterpriseId : String) (payload : String)
  | disconnected (enterpriseId : String) (destroyOk : Bool)
  | authFailure (enterpriseId : String) (destroyOk : Bool)
  | disconnect (enterpriseId : String) (destroyOk : Bool)

/-- The state reached by one operation. -/
def applyOp (st : BotState) : Op → BotState
  | Op.init enterpriseId initOk => (initializeClient st enterpriseId initOk).state
  | Op.message db enterpriseId msg => (handleMessage db st enterpriseId msg).1
  | Op.ready enterpriseId => (onReady st enterpriseId).1
  | Op.qr enterpriseId payload => (onQr st enterpriseId payload).1
  | Op.disconnected enterpriseId destroyOk => (onDisconnected st enterpriseId destroyOk).state
  | Op.authFailure enterpriseId destroyOk => (onAuthFailure st enterpriseId destroyOk).state
  | Op.disconnect enterpriseId destroyOk => (disconnectClient st enterpriseId destroyOk).state

/-- The state reached from the freshly constructed service by a sequence
of operations. -/
def runOps (ops : List Op) : BotState :=
  ops.foldl applyOp BotState.initial

/-- The invariant of claim C9: a chat whose ending flag reads true has a
positive message count. -/
def EndingInv (st : BotState) : Prop :=
  ∀ enterpriseId chatId, lookupEnding st enterpriseId chatId = true →
    0 < lookupCount st enterpriseId chatId

/-- The invariant of claim C10: a tenant has a client entry iff it has a
conversation-state container entry. -/
def SameKeys (st : BotState) : Prop :=
  ∀ enterpriseId, (st.clients.get enterpriseId).isSome
    = (st.clientStates.get enterpriseId).isSome

/-! Concrete fixtures used by the witnesses below. -/

/-- A store with one available prompt and one available ending reply for
tenant `t1`. -/
def demoDb : Db :=
  { prompts := [{ enterpriseId := "t1", available := true, body := "P" }]
    messages :=
      [{ enterpriseId := "t1", available := true, trigger := "hi", body := "B", ending := true }] }

/-- A service state with one live session for tenant `t1`. -/
def demoState : BotState := (initializeClient BotState.initial "t1" true).state

/-- `demoState` after chat `c1` sent a first message: count 1, ending
false, last body `P`. -/
def demoState2 : BotState :=
  (handleMessage demoDb demoState "t1" (Msg.mk "c1" "x" false)).1


/-! Basic lemmas about `Store`. -/

@[simp] theorem Store.get_set_self (m : Store α) (k : String) (v : α) :
    (m.set k v).get k = some v := by
  simp [Store.get, Store.set]

@[simp] theorem Store.get_set (m : Store α) (k k' : String) (v : α) :
    (m.set k v).get k' = if k' = k then some v else m.get k' := by
  by_cases h : k' = k <;> simp [Store.get, Store.set, h]

@[simp] theorem Store.get_del (m : Store α) (k k' : String) :
    (m.del k).get k' = if k' = k then none else m.get k' := by
  by_cases h : k' = k <;> simp [Store.get, Store.del, h]

@[simp] theorem Store.get_empty (k : String) : (Store.empty : Store α).get k = none := rfl

/-! How the observation functions react to an update of one tenant entry. -/

theorem lookupEnding_setCS (st : BotState) (enterpriseId : String) (cs' : ClientState)
    (e c : String) :
    lookupEnding { st with clientStates := st.clientStates.set enterpriseId cs' } e c
      = if e = enterpriseId then (cs'.endingFlags.get c).getD false else lookupEnding st e c := by
  by_cases h : e = enterpriseId <;> simp [lookupEnding, Store.get_set, h]

theorem lookupCount_setCS (st : BotState) (enterpriseId : String) (cs' : ClientState)
    (e c : String) :
    lookupCount { st with clientStates := st.clientStates.set enterpriseId cs' } e c
      = if e = enterpriseId then ((cs'.userStates.get c).getD UserChatState.initial).messageCount
        else lookupCount st e c := by
  by_cases h : e = enterpriseId <;> simp [lookupCount, Store.get_set, h]

theorem lookupLast_setCS (st : BotState) (enterpriseId : String) (cs' : ClientState)
    (e c : String) :
    lookupLast { st with clientStates := st.clientStates.set enterpriseId cs' } e c
      = if e = enterpriseId then ((cs'.userStates.get c).getD UserChatState.initial).lastMessageBody
        else lookupLast st e c := by
  by_cases h : e = enterpriseId <;> simp [lookupLast, Store.get_set, h]

/-- C1: on an inbound message handled for a (tenant, chat) pair whose
state has messageCount 0 or an ending flag set, with an available prompt
record for the tenant, the dispatcher sets the count to exactly 1, clears
the ending flag, records the prompt body as last sent, and sends exactly
one outbound message carrying the prompt body — independently of the
inbound body. -/
theorem C1_start_branch_sends_prompt
    (db : Db) (st : BotState) (enterpriseId : String) (msg : Msg) (prompt : PromptRecord)
    (hme : msg.fromMe = false)
    (hbc : msg.msgFrom ≠ "status@broadcast")
    (hcs : (st.clientStates.get enterpriseId).isSome = true)
    (hc : (st.clients.get enterpriseId).isSome = true)
    (hbranch : lookupCount st enterpriseId msg.msgFrom = 0 ∨
      lookupEnding st enterpriseId msg.msgFrom = true)
    (hp : db.promptFindFirst enterpriseId = some prompt) :
    lookupCount (handleMessage db st enterpriseId msg).1 enterpriseId msg.msgFrom = 1 ∧
    lookupEnding (handleMessage db st enterpriseId msg).1 enterpriseId msg.msgFrom = false ∧
    lookupLast (handleMessage db st enterpriseId msg).1 enterpriseId msg.msgFrom
      = some prompt.body ∧
    (handleMessage db st enterpriseId msg).2 = [(msg.msgFrom, prompt.body)] := by
  obtain ⟨cs, hcs'⟩ := Option.isSome_iff_exists.mp hcs
  obtain ⟨cl, hc'⟩ := Option.isSome_iff_exists.mp hc
  have hcond : (((cs.userStates.get msg.msgFrom).getD UserChatState.initial).messageCount == 0
      || (cs.endingFlags.get msg.msgFrom).getD false) = true := by
    rcases hbranch with h | h
    · simp only [lookupCount, hcs'] at h
      simp [h]
    · simp only [lookupEnding, hcs'] at h
      simp [h]
  simp only [handleMessage, hme, hbc, hcs', hc', hcond, hp, Bool.false_or, beq_iff_eq,
    if_false, Bool.or_eq_true, if_true, ite_true, ite_false]
  simp [lookupCount, lookupEnding, lookupLast, Store.get_set_self]

theorem C1_start_branch_sends_prompt_witness :
    (Msg.mk "c1" "hello" false).fromMe = false ∧
    (Msg.mk "c1" "hello" false).msgFrom ≠ "status@broadcast" ∧
    (demoState.clientStates.get "t1").isSome = true ∧
    (demoState.clients.get "t1").isSome = true ∧
    (lookupCount demoState "t1" "c1" = 0 ∨ lookupEnding demoState "t1" "c1" = true) ∧
    demoDb.promptFindFirst "t1" = some (PromptRecord.mk "t1" true "P") ∧
    (lookupCount (handleMessage demoDb demoState "t1" (Msg.mk "c1" "hello" false)).1
        "t1" "c1" = 1 ∧
      lookupEnding (handleMessage demoDb demoState "t1" (Msg.mk "c1" "hello" false)).1
        "t1" "c1" = false ∧
      lookupLast (handleMessage demoDb demoState "t1" (Msg.mk "c1" "hello" false)).1
        "t1" "c1" = some (PromptRecord.mk "t1" true "P").body ∧
      (handleMessage demoDb demoState "t1" (Msg.mk "c1" "hello" false)).2
        = [("c1", (PromptRecord.mk "t1" true "P").body)]) :=
  ⟨by decide, by decide, by decide, by decide, by decide, by decide,
    C1_start_branch_sends_prompt demoDb demoState "t1" (Msg.mk "c1" "hello" false)
      (PromptRecord.mk "t1" true "P") (by decide) (by decide) (by decide) (by decide)
      (by decide) (by decide)⟩

/-- C2: on an inbound message handled for a (tenant, chat) pair with a
positive message count and a cleared ending flag, if the store yields an
available reply whose trigger equals the body case-insensitively, the
dispatcher increments the count by one, records the reply body as last
sent, copies the reply ending field into the ending flag, and sends the
reply body to the chat. -/
theorem C2_trigger_match_sends_reply
    (db : Db) (st : BotState) (enterpriseId : String) (msg : Msg) (reply : ReplyRecord)
    (hme : msg.fromMe = false)
    (hbc : msg.msgFrom ≠ "status@broadcast")
    (hcs : (st.clientStates.get enterpriseId).isSome = true)
    (hc : (st.clients.get enterpriseId).isSome = true)
    (hcount : 0 < lookupCount st enterpriseId msg.msgFrom)
    (hending : lookupEnding st enterpriseId msg.msgFrom = false)
    (hr : db.messagesFindFirst enterpriseId msg.body = some reply) :
    lookupCount (handleMessage db st enterpriseId msg).1 enterpriseId msg.msgFrom
      = lookupCount st enterpriseId msg.msgFrom + 1 ∧
    lookupLast (handleMessage db st enterpriseId msg).1 enterpriseId msg.msgFrom
      = some reply.body ∧
    lookupEnding (handleMessage db st enterpriseId msg).1 enterpriseId msg.msgFrom
      = reply.ending ∧
    (handleMessage db st enterpriseId msg).2 = [(msg.msgFrom, reply.body)] := by
  obtain ⟨cs, hcs'⟩ := Option.isSome_iff_exists.mp hcs
  obtain ⟨cl, hc'⟩ := Option.isSome_iff_exists.mp hc
  simp only [lookupCount, hcs'] at hcount
  simp only [lookupEnding, hcs'] at hending
  have hcond : (((cs.userStates.get msg.msgFrom).getD UserChatState.initial).messageCount == 0
      || (cs.endingFlags.get msg.msgFrom).getD false) = false := by
    simp [hending, Nat.pos_iff_ne_zero.mp hcount]
  simp only [handleMessage, hme, hbc, hcs', hc', hcond, hr, Bool.false_or, beq_iff_eq,
    if_false, ite_true, ite_false, Bool.false_eq_true]
  simp [lookupCount, lookupEnding, lookupLast, hcs', Store.get_set_self]

theorem C2_trigger_match_sends_reply_witness :
    (Msg.mk "c1" "HI" false).fromMe = false ∧
    (Msg.mk "c1" "HI" false).msgFrom ≠ "status@broadcast" ∧
    (demoState2.clientStates.get "t1").isSome = true ∧
    (demoState2.clients.get "t1").isSome = true ∧
    0 < lookupCount demoState2 "t1" "c1" ∧
    lookupEnding demoState2 "t1" "c1" = false ∧
    demoDb.messagesFindFirst "t1" "HI" = some (ReplyRecord.mk "t1" true "hi" "B" true) ∧
    (lookupCount (handleMessage demoDb demoState2 "t1" (Msg.mk "c1" "HI" false)).1 "t1" "c1"
        = lookupCount demoState2 "t1" "c1" + 1 ∧
      lookupLast (handleMessage demoDb demoState2 "t1" (Msg.mk "c1" "HI" false)).1 "t1" "c1"
        = some (ReplyRecord.mk "t1" true "hi" "B" true).body ∧
      lookupEnding (handleMessage demoDb demoState2 "t1" (Msg.mk "c1" "HI" false)).1 "t1" "c1"
        = (ReplyRecord.mk "t1" true "hi" "B" true).ending ∧
      (handleMessage demoDb demoState2 "t1" (Msg.mk "c1" "HI" false)).2
        = [("c1", (ReplyRecord.mk "t1" true "hi" "B" true).body)]) :=
  ⟨by decide, by decide, by decide, by decide, by decide, by decide, by decide,
    C2_trigger_match_sends_reply demoDb demoState2 "t1" (Msg.mk "c1" "HI" false)
      (ReplyRecord.mk "t1" true "hi" "B" true) (by decide) (by decide) (by decide) (by decide)
      (by decide) (by decide) (by decide)⟩

/-- C3: on an inbound message handled for a (tenant, chat) pair with a
positive message count and a cleared ending flag, if no available reply
matches the body, the dispatcher resends the last-sent body verbatim when
one is recorded and sends nothing otherwise; message count, ending flag
and last-sent body are unchanged in both cases. -/
theorem C3_no_match_repeats_last
    (db : Db) (st : BotState) (enterpriseId : String) (msg : Msg)
    (hme : msg.fromMe = false)
    (hbc : msg.msgFrom ≠ "status@broadcast")
    (hcs : (st.clientStates.get enterpriseId).isSome = true)
    (hc : (st.clients.get enterpriseId).isSome = true)
    (hcount : 0 < lookupCount st enterpriseId msg.msgFrom)
    (hending : lookupEnding st enterpriseId msg.msgFrom = false)
    (hr : db.messagesFindFirst enterpriseId msg.body = none) :
    ((handleMessage db st enterpriseId msg).2
      = match lookupLast st enterpriseId msg.msgFrom with
        | some s => [(msg.msgFrom, s)]
        | none => []) ∧
    lookupCount (handleMessage db st enterpriseId msg).1 enterpriseId msg.msgFrom
      = lookupCount st enterpriseId msg.msgFrom ∧
    lookupEnding (handleMessage db st enterpriseId msg).1 enterpriseId msg.msgFrom
      = lookupEnding st enterpriseId msg.msgFrom ∧
    lookupLast (handleMessage db st enterpriseId msg).1 enterpriseId msg.msgFrom
      = lookupLast st enterpriseId msg.msgFrom := by
  obtain ⟨cs, hcs'⟩ := Option.isSome_iff_exists.mp hcs
  obtain ⟨cl, hc'⟩ := Option.isSome_iff_exists.mp hc
  have hcount' := hcount
  simp only [lookupCount, hcs'] at hcount'
  have hending' := hending
  simp only [lookupEnding, hcs'] at hending'
  have hcond : (((cs.userStates.get msg.msgFrom).getD UserChatState.initial).messageCount == 0
      || (cs.endingFlags.get msg.msgFrom).getD false) = false := by
    simp [hending', Nat.pos_iff_ne_zero.mp hcount']
  simp only [handleMessage, hme, hbc, hcs', hc', hcond, hr, Bool.false_or, beq_iff_eq,
    if_false, ite_true, ite_false, Bool.false_eq_true]
  cases hu : ((cs.userStates.get msg.msgFrom).getD UserChatState.initial).lastMessageBody with
  | none =>
    simp only [hu, lookupCount, lookupEnding, lookupLast, hcs', Store.get_set_self]
    simp [hu]
  | some s =>
    simp only [hu, lookupCount, lookupEnding, lookupLast, hcs', Store.get_set_self]
    simp [hu]

theorem C3_no_match_repeats_last_witness :
    (Msg.mk "c1" "zzz" false).fromMe = false ∧
    (Msg.mk "c1" "zzz" false).msgFrom ≠ "status@broadcast" ∧
    (demoState2.clientStates.get "t1").isSome = true ∧
    (demoState2.clients.get "t1").isSome = true ∧
    0 < lookupCount demoState2 "t1" "c1" ∧
    lookupEnding demoState2 "t1" "c1" = false ∧
    demoDb.messagesFindFirst "t1" "zzz" = none ∧
    (((handleMessage demoDb demoState2 "t1" (Msg.mk "c1" "zzz" false)).2
        = match lookupLast demoState2 "t1" "c1" with
          | some s => [("c1", s)]
          | none => []) ∧
      lookupCount (handleMessage demoDb demoState2 "t1" (Msg.mk "c1" "zzz" false)).1 "t1" "c1"
        = lookupCount demoState2 "t1" "c1" ∧
      lookupEnding (handleMessage demoDb demoState2 "t1" (Msg.mk "c1" "zzz" false)).1 "t1" "c1"
        = lookupEnding demoState2 "t1" "c1" ∧
      lookupLast (handleMessage demoDb demoState2 "t1" (Msg.mk "c1" "zzz" false)).1 "t1" "c1"
        = lookupLast demoState2 "t1" "c1") :=
  ⟨by decide, by decide, by decide, by decide, by decide, by decide, by decide,
    C3_no_match_repeats_last demoDb demoState2 "t1" (Msg.mk "c1" "zzz" false)
      (by decide) (by decide) (by decide) (by decide) (by decide) (by decide) (by decide)⟩

/-- C4 counterexample: the claim says every disconnect — explicit request,
transport disconnected callback, or auth failure — produces exactly one
`client.disconnected` notification; but on a live session the
`disconnected` callback emits once itself and then `disconnectClient`
emits again, giving two notifications. -/
theorem C4_disconnected_callback_double_emit :
    (onDisconnected demoState "t1" true).events.length ≠ 1 := by
  decide

/-- C4 (amended): an explicit `disconnectClient` on a live session emits
exactly one `client.disconnected` notification, while the transport
`disconnected` callback and the `auth_failure` callback each emit exactly
two (one in the handler and one in the `disconnectClient` they call). -/
theorem C4_disconnect_notification_counts
    (st : BotState) (enterpriseId : String) (destroyOk : Bool)
    (h : (st.clients.get enterpriseId).isSome = true) :
    (disconnectClient st enterpriseId destroyOk).events
      = [Event.clientDisconnected enterpriseId] ∧
    (onDisconnected st enterpriseId destroyOk).events
      = [Event.clientDisconnected enterpriseId, Event.clientDisconnected enterpriseId] ∧
    (onAuthFailure st enterpriseId destroyOk).events
      = [Event.clientDisconnected enterpriseId, Event.clientDisconnected enterpriseId] := by
  obtain ⟨cl, h'⟩ := Option.isSome_iff_exists.mp h
  simp [disconnectClient, onDisconnected, onAuthFailure, h']

theorem C4_disconnect_notification_counts_witness :
    (demoState.clients.get "t1").isSome = true ∧
    ((disconnectClient demoState "t1" true).events = [Event.clientDisconnected "t1"] ∧
      (onDisconnected demoState "t1" true).events
        = [Event.clientDisconnected "t1", Event.clientDisconnected "t1"] ∧
      (onAuthFailure demoState "t1" true).events
        = [Event.clientDisconnected "t1", Event.clientDisconnected "t1"]) :=
  ⟨by decide, C4_disconnect_notification_counts demoState "t1" true (by decide)⟩

/-- C5: on a tenant with a live session, `disconnectClient` — whatever
the outcome of the client teardown — emits the disconnected notification,
removes the session entry and the whole conversation-state container,
and invokes deletion of the tenant credential storage; afterwards the
tenant has no session and no conversation-state entries. -/
theorem C5_disconnect_always_cleans_up
    (st : BotState) (enterpriseId : String) (destroyOk : Bool)
    (h : (st.clients.get enterpriseId).isSome = true) :
    (disconnectClient st enterpriseId destroyOk).events
      = [Event.clientDisconnected enterpriseId] ∧
    (disconnectClient st enterpriseId destroyOk).deletedSession = true ∧
    (disconnectClient st enterpriseId destroyOk).state.clients.get enterpriseId = none ∧
    (disconnectClient st enterpriseId destroyOk).state.clientStates.get enterpriseId = none ∧
    ∀ chatId, lookupUserState (disconnectClient st enterpriseId destroyOk).state
        enterpriseId chatId = none := by
  obtain ⟨cl, h'⟩ := Option.isSome_iff_exists.mp h
  simp [disconnectClient, h', lookupUserState]

theorem C5_disconnect_always_cleans_up_witness :
    (demoState.clients.get "t1").isSome = true ∧
    ((disconnectClient demoState "t1" false).events = [Event.clientDisconnected "t1"] ∧
      (disconnectClient demoState "t1" false).deletedSession = true ∧
      (disconnectClient demoState "t1" false).state.clients.get "t1" = none ∧
      (disconnectClient demoState "t1" false).state.clientStates.get "t1" = none ∧
      ∀ chatId, lookupUserState (disconnectClient demoState "t1" false).state "t1" chatId
        = none) :=
  ⟨by decide, C5_disconnect_always_cleans_up demoState "t1" false (by decide)⟩

/-- C6: if a call of `initializeClient` returned a client handle, a
second call for the same tenant returns the same handle, leaves the
service state entirely unchanged, emits nothing and deletes nothing
(idempotence without an intervening disconnect). -/
theorem C6_initialize_idempotent
    (st : BotState) (enterpriseId : String) (ok1 ok2 : Bool) (client : Nat)
    (h : (initializeClient st enterpriseId ok1).client = some client) :
    (initializeClient (initializeClient st enterpriseId ok1).state enterpriseId ok2).client
      = some client ∧
    (initializeClient (initializeClient st enterpriseId ok1).state enterpriseId ok2).state
      = (initializeClient st enterpriseId ok1).state ∧
    (initializeClient (initializeClient st enterpriseId ok1).state enterpriseId ok2).events
      = [] ∧
    (initializeClient (initializeClient st enterpriseId ok1).state enterpriseId ok2).deletedSession
      = false := by
  have hget : (initializeClient st enterpriseId ok1).state.clients.get enterpriseId
      = some client := by
    unfold initializeClient at h ⊢
    cases hst : st.clients.get enterpriseId with
    | some c =>
      simp [hst] at h ⊢
      exact h
    | none =>
      cases ok1 with
      | true => simp_all
      | false => simp [hst] at h
  generalize hst1 : (initializeClient st enterpriseId ok1).state = st1 at hget ⊢
  simp [initializeClient, hget]

theorem C6_initialize_idempotent_witness :
    (initializeClient BotState.initial "t1" true).client = some 0 ∧
    ((initializeClient (initializeClient BotState.initial "t1" true).state "t1" true).client
        = some 0 ∧
      (initializeClient (initializeClient BotState.initial "t1" true).state "t1" true).state
        = (initializeClient BotState.initial "t1" true).state ∧
      (initializeClient (initializeClient BotState.initial "t1" true).state "t1" true).events
        = [] ∧
      (initializeClient
          (initializeClient BotState.initial "t1" true).state "t1" true).deletedSession
        = false) :=
  ⟨by decide, C6_initialize_idempotent BotState.initial "t1" true true 0 (by decide)⟩

/-- C7: the `ready` callback leaves every chat of the tenant reading a
cleared ending flag, changes no message count and no last-sent body of
any chat of any tenant, and emits exactly one `client.ready`
notification. -/
theorem C7_ready_clears_ending_flags (st : BotState) (enterpriseId : String) :
    (∀ chatId, lookupEnding (onReady st enterpriseId).1 enterpriseId chatId = false) ∧
    (∀ enterpriseId' chatId,
      lookupCount (onReady st enterpriseId).1 enterpriseId' chatId
        = lookupCount st enterpriseId' chatId) ∧
    (∀ enterpriseId' chatId,
      lookupLast (onReady st enterpriseId).1 enterpriseId' chatId
        = lookupLast st enterpriseId' chatId) ∧
    (onReady st enterpriseId).2 = [Event.clientReady enterpriseId] := by
  unfold onReady
  cases hcs : st.clientStates.get enterpriseId with
  | none =>
    refine ⟨fun chatId => ?_, fun e c => rfl, fun e c => rfl, rfl⟩
    simp [lookupEnding, hcs]
  | some cs =>
    refine ⟨fun chatId => ?_, fun e c => ?_, fun e c => ?_, rfl⟩
    · simp [lookupEnding_setCS]
    · rw [lookupCount_setCS]
      by_cases h : e = enterpriseId
      · subst h
        simp [lookupCount, hcs]
      · simp [h]
    · rw [lookupLast_setCS]
      by_cases h : e = enterpriseId
      · subst h
        simp [lookupLast, hcs]
      · simp [h]

/-- C8: on an inbound message that takes the start-of-conversation branch
while no available prompt exists for the tenant, the dispatcher sends
nothing, every stored conversation-state entry keeps its prior value, and
every (tenant, chat) pair reads the same message count, ending flag and
last-sent body as before. -/
theorem C8_no_prompt_drops_message
    (db : Db) (st : BotState) (enterpriseId : String) (msg : Msg)
    (hme : msg.fromMe = false)
    (hbc : msg.msgFrom ≠ "status@broadcast")
    (hcs : (st.clientStates.get enterpriseId).isSome = true)
    (hc : (st.clients.get enterpriseId).isSome = true)
    (hbranch : lookupCount st enterpriseId msg.msgFrom = 0 ∨
      lookupEnding st enterpriseId msg.msgFrom = true)
    (hp : db.promptFindFirst enterpriseId = none) :
    (handleMessage db st enterpriseId msg).2 = [] ∧
    (∀ chatId u, lookupUserState st enterpriseId chatId = some u →
      lookupUserState (handleMessage db st enterpriseId msg).1 enterpriseId chatId = some u) ∧
    (∀ enterpriseId' chatId,
      lookupCount (handleMessage db st enterpriseId msg).1 enterpriseId' chatId
        = lookupCount st enterpriseId' chatId ∧
      lookupEnding (handleMessage db st enterpriseId msg).1 enterpriseId' chatId
        = lookupEnding st enterpriseId' chatId ∧
      lookupLast (handleMessage db st enterpriseId msg).1 enterpriseId' chatId
        = lookupLast st enterpriseId' chatId) := by
  obtain ⟨cs, hcs'⟩ := Option.isSome_iff_exists.mp hcs
  obtain ⟨cl, hc'⟩ := Option.isSome_iff_exists.mp hc
  have hcond : (((cs.userStates.get msg.msgFrom).getD UserChatState.initial).messageCount == 0
      || (cs.endingFlags.get msg.msgFrom).getD false) = true := by
    rcases hbranch with h | h
    · simp only [lookupCount, hcs'] at h
      simp [h]
    · simp only [lookupEnding, hcs'] at h
      simp [h]
  simp only [handleMessage, hme, hbc, hcs', hc', hcond, hp, Bool.false_or, beq_iff_eq,
    if_false, ite_true, ite_false]
  refine ⟨trivial, fun chatId u hu => ?_, fun e c => ⟨?_, ?_, ?_⟩⟩
  · simp only [lookupUserState, hcs', Option.bind] at hu
    by_cases h : chatId = msg.msgFrom
    · subst h
      simp [lookupUserState, Store.get_set, hu]
    · simp [lookupUserState, Store.get_set, h, hu]
  · rw [lookupCount_setCS]
    by_cases h : e = enterpriseId
    · subst h
      by_cases h2 : c = msg.msgFrom
      · subst h2
        simp [lookupCount, hcs', Store.get_set]
      · simp [lookupCount, hcs', Store.get_set, h2]
    · simp [h]
  · rw [lookupEnding_setCS]
    by_cases h : e = enterpriseId
    · subst h
      simp [lookupEnding, hcs']
    · simp [h]
  · rw [lookupLast_setCS]
    by_cases h : e = enterpriseId
    · subst h
      by_cases h2 : c = msg.msgFrom
      · subst h2
        simp [lookupLast, hcs', Store.get_set]
      · simp [lookupLast, hcs', Store.get_set, h2]
    · simp [h]

theorem C8_no_prompt_drops_message_witness :
    (Msg.mk "c1" "hello" false).fromMe = false ∧
    (Msg.mk "c1" "hello" false).msgFrom ≠ "status@broadcast" ∧
    (demoState.clientStates.get "t1").isSome = true ∧
    (demoState.clients.get "t1").isSome = true ∧
    (lookupCount demoState "t1" "c1" = 0 ∨ lookupEnding demoState "t1" "c1" = true) ∧
    (Db.mk [] []).promptFindFirst "t1" = none ∧
    ((handleMessage (Db.mk [] []) demoState "t1" (Msg.mk "c1" "hello" false)).2 = [] ∧
      (∀ chatId u, lookupUserState demoState "t1" chatId = some u →
        lookupUserState (handleMessage (Db.mk [] []) demoState "t1"
          (Msg.mk "c1" "hello" false)).1 "t1" chatId = some u) ∧
      (∀ enterpriseId' chatId,
        lookupCount (handleMessage (Db.mk [] []) demoState "t1"
            (Msg.mk "c1" "hello" false)).1 enterpriseId' chatId
          = lookupCount demoState enterpriseId' chatId ∧
        lookupEnding (handleMessage (Db.mk [] []) demoState "t1"
            (Msg.mk "c1" "hello" false)).1 enterpriseId' chatId
          = lookupEnding demoState enterpriseId' chatId ∧
        lookupLast (handleMessage (Db.mk [] []) demoState "t1"
            (Msg.mk "c1" "hello" false)).1 enterpriseId' chatId
          = lookupLast demoState enterpriseId' chatId)) :=
  ⟨by decide, by decide, by decide, by decide, by decide, by decide,
    C8_no_prompt_drops_message (Db.mk [] []) demoState "t1" (Msg.mk "c1" "hello" false)
      (by decide) (by decide) (by decide) (by decide) (by decide) (by decide)⟩

/-! Preservation of `EndingInv` by every operation. -/

theorem endingInv_initial : EndingInv BotState.initial := by
  intro e c h
  simp [lookupEnding, BotState.initial] at h

theorem endingInv_initializeClient (st : BotState) (enterpriseId : String) (initOk : Bool)
    (h : EndingInv st) : EndingInv (initializeClient st enterpriseId initOk).state := by
  unfold initializeClient
  cases hst : st.clients.get enterpriseId with
  | some c => simpa using h
  | none =>
    cases initOk with
    | true =>
      intro e c
      by_cases he : e = enterpriseId
      · subst he
        simp [lookupEnding, Store.get_set, ClientState.initial]
      · simpa [lookupEnding, lookupCount, Store.get_set, he] using h e c
    | false =>
      intro e c
      by_cases he : e = enterpriseId
      · subst he
        simp [lookupEnding, Store.get_del]
      · simpa [lookupEnding, lookupCount, Store.get_del, he] using h e c

theorem endingInv_disconnectClient (st : BotState) (enterpriseId : String) (destroyOk : Bool)
    (h : EndingInv st) : EndingInv (disconnectClient st enterpriseId destroyOk).state := by
  unfold disconnectClient
  cases hst : st.clients.get enterpriseId with
  | none => simpa using h
  | some c =>
    intro e c'
    by_cases he : e = enterpriseId
    · subst he
      simp [lookupEnding, Store.get_del]
    · simpa [lookupEnding, lookupCount, Store.get_del, he] using h e c'

theorem endingInv_onReady (st : BotState) (enterpriseId : String)
    (h : EndingInv st) : EndingInv (onReady st enterpriseId).1 := by
  unfold onReady
  cases hcs : st.clientStates.get enterpriseId with
  | none => simpa using h
  | some cs =>
    intro e c
    rw [lookupEnding_setCS, lookupCount_setCS]
    by_cases he : e = enterpriseId
    · subst he
      simp
    · simp only [he, if_false]
      exact h e c

theorem endingInv_handleMessage (db : Db) (st : BotState) (enterpriseId : String) (msg : Msg)
    (h : EndingInv st) : EndingInv (handleMessage db st enterpriseId msg).1 := by
  by_cases hguard : (msg.fromMe || msg.msgFrom == "status@broadcast") = true
  · simpa [handleMessage, hguard] using h
  cases hcs : st.clientStates.get enterpriseId with
  | none => simpa [handleMessage, hguard, hcs] using h
  | some cs =>
  cases hc : st.clients.get enterpriseId with
  | none => simpa [handleMessage, hguard, hcs, hc] using h
  | some cl =>
  have hEold : ∀ c, lookupEnding st enterpriseId c = (cs.endingFlags.get c).getD false := by
    intro c
    simp [lookupEnding, hcs]
  have hCold : ∀ c, lookupCount st enterpriseId c
      = ((cs.userStates.get c).getD UserChatState.initial).messageCount := by
    intro c
    simp [lookupCount, hcs]
  have husame : ∀ c,
      (((cs.userStates.set msg.msgFrom
          ((cs.userStates.get msg.msgFrom).getD UserChatState.initial)).get c).getD
        UserChatState.initial)
      = (cs.userStates.get c).getD UserChatState.initial := by
    intro c
    by_cases hch : c = msg.msgFrom
    · subst hch
      simp [Store.get_set]
    · simp [Store.get_set, hch]
  by_cases hcond : (((cs.userStates.get msg.msgFrom).getD UserChatState.initial).messageCount == 0
      || (cs.endingFlags.get msg.msgFrom).getD false) = true
  · cases hp : db.promptFindFirst enterpriseId with
    | none =>
      intro e c
      simp only [handleMessage, hguard, hcs, hc, hcond, hp, if_true, if_false, ite_true,
        ite_false, Bool.false_eq_true]
      rw [lookupEnding_setCS, lookupCount_setCS]
      by_cases he : e = enterpriseId
      · subst he
        simp only [if_true, reduceIte]
        intro hflag
        rw [husame c]
        have := h e c (by rw [hEold]; exact hflag)
        rwa [hCold c] at this
      · simp only [he, if_false, reduceIte]
        exact h e c
    | some prompt =>
      intro e c
      simp only [handleMessage, hguard, hcs, hc, hcond, hp, if_true, if_false, ite_true,
        ite_false, Bool.false_eq_true]
      rw [lookupEnding_setCS, lookupCount_setCS]
      by_cases he : e = enterpriseId
      · subst he
        simp only [if_true, reduceIte]
        by_cases hch : c = msg.msgFrom
        · subst hch
          simp [Store.get_set]
        · simp only [Store.get_set, hch, if_false, reduceIte]
          intro hflag
          have := h e c (by rw [hEold]; exact hflag)
          rwa [hCold c] at this
      · simp only [he, if_false, reduceIte]
        exact h e c
  · cases hr : db.messagesFindFirst enterpriseId msg.body with
    | none =>
      intro e c
      simp only [handleMessage, hguard, hcs, hc, hcond, hr, if_true, if_false, ite_true,
        ite_false, Bool.false_eq_true]
      cases hl : ((cs.userStates.get msg.msgFrom).getD UserChatState.initial).lastMessageBody with
      | some s =>
        rw [lookupEnding_setCS, lookupCount_setCS]
        by_cases he : e = enterpriseId
        · subst he
          simp only [if_true, reduceIte]
          intro hflag
          rw [husame c]
          have := h e c (by rw [hEold]; exact hflag)
          rwa [hCold c] at this
        · simp only [he, if_false, reduceIte]
          exact h e c
      | none =>
        rw [lookupEnding_setCS, lookupCount_setCS]
        by_cases he : e = enterpriseId
        · subst he
          simp only [if_true, reduceIte]
          intro hflag
          rw [husame c]
          have := h e c (by rw [hEold]; exact hflag)
          rwa [hCold c] at this
        · simp only [he, if_false, reduceIte]
          exact h e c
    | some reply =>
      intro e c
      simp only [handleMessage, hguard, hcs, hc, hcond, hr, if_true, if_false, ite_true,
        ite_false, Bool.false_eq_true]
      rw [lookupEnding_setCS, lookupCount_setCS]
      by_cases he : e = enterpriseId
      · subst he
        simp only [if_true, reduceIte]
        by_cases hch : c = msg.msgFrom
        · subst hch
          simp [Store.get_set]
        · simp only [Store.get_set, hch, if_false, reduceIte]
          intro hflag
          have := h e c (by rw [hEold]; exact hflag)
          rwa [hCold c] at this
      · simp only [he, if_false, reduceIte]
        exact h e c

theorem endingInv_applyOp (st : BotState) (op : Op) (h : EndingInv st) :
    EndingInv (applyOp st op) := by
  cases op with
  | init enterpriseId initOk => exact endingInv_initializeClient st enterpriseId initOk h
  | message db enterpriseId msg => exact endingInv_handleMessage db st enterpriseId msg h
  | ready enterpriseId => exact endingInv_onReady st enterpriseId h
  | qr enterpriseId payload => exact h
  | disconnected enterpriseId destroyOk =>
    exact endingInv_disconnectClient st enterpriseId destroyOk h
  | authFailure enterpriseId destroyOk =>
    exact endingInv_disconnectClient st enterpriseId destroyOk h
  | disconnect enterpriseId destroyOk =>
    exact endingInv_disconnectClient st enterpriseId destroyOk h

theorem endingInv_runOps (ops : List Op) : EndingInv (runOps ops) := by
  suffices hgen : ∀ st, EndingInv st → EndingInv (ops.foldl applyOp st) from
    hgen BotState.initial endingInv_initial
  induction ops with
  | nil => exact fun st h => h
  | cons op rest ih => exact fun st h => ih (applyOp st op) (endingInv_applyOp st op h)

/-- C9: in every state the service can reach by any sequence of
dispatcher and lifecycle operations, a (tenant, chat) pair whose ending
flag reads true has a positive message count. -/
theorem C9_ending_implies_positive_count
    (ops : List Op) (enterpriseId chatId : String)
    (h : lookupEnding (runOps ops) enterpriseId chatId = true) :
    0 < lookupCount (runOps ops) enterpriseId chatId :=
  endingInv_runOps ops enterpriseId chatId h

theorem C9_ending_implies_positive_count_witness :
    lookupEnding (runOps [Op.init "t1" true, Op.message demoDb "t1" (Msg.mk "c1" "x" false),
      Op.message demoDb "t1" (Msg.mk "c1" "hi" false)]) "t1" "c1" = true ∧
    0 < lookupCount (runOps [Op.init "t1" true, Op.message demoDb "t1" (Msg.mk "c1" "x" false),
      Op.message demoDb "t1" (Msg.mk "c1" "hi" false)]) "t1" "c1" :=
  ⟨by decide,
    C9_ending_implies_positive_count
      [Op.init "t1" true, Op.message demoDb "t1" (Msg.mk "c1" "x" false),
        Op.message demoDb "t1" (Msg.mk "c1" "hi" false)] "t1" "c1" (by decide)⟩

/-! Preservation of `SameKeys` by every operation. -/

theorem sameKeys_initial : SameKeys BotState.initial := fun _ => rfl

theorem sameKeys_initializeClient (st : BotState) (enterpriseId : String) (initOk : Bool)
    (h : SameKeys st) : SameKeys (initializeClient st enterpriseId initOk).state := by
  unfold initializeClient
  cases hst : st.clients.get enterpriseId with
  | some c => simpa using h
  | none =>
    cases initOk with
    | true =>
      intro e
      by_cases he : e = enterpriseId
      · subst he
        simp [Store.get_set]
      · simpa [Store.get_set, he] using h e
    | false =>
      intro e
      by_cases he : e = enterpriseId
      · subst he
        simp [Store.get_del]
      · simpa [Store.get_del, he] using h e

theorem sameKeys_disconnectClient (st : BotState) (enterpriseId : String) (destroyOk : Bool)
    (h : SameKeys st) : SameKeys (disconnectClient st enterpriseId destroyOk).state := by
  unfold disconnectClient
  cases hst : st.clients.get enterpriseId with
  | none => simpa using h
  | some c =>
    intro e
    by_cases he : e = enterpriseId
    · subst he
      simp [Store.get_del]
    · simpa [Store.get_del, he] using h e

theorem sameKeys_onReady (st : BotState) (enterpriseId : String)
    (h : SameKeys st) : SameKeys (onReady st enterpriseId).1 := by
  unfold onReady
  cases hcs : st.clientStates.get enterpriseId with
  | none => simpa using h
  | some cs =>
    intro e
    by_cases he : e = enterpriseId
    · subst he
      simp [Store.get_set, ← h e, hcs]
      rw [h e, hcs]
      rfl
    · simpa [Store.get_set, he] using h e

theorem sameKeys_handleMessage (db : Db) (st : BotState) (enterpriseId : String) (msg : Msg)
    (h : SameKeys st) : SameKeys (handleMessage db st enterpriseId msg).1 := by
  by_cases hguard : (msg.fromMe || msg.msgFrom == "status@broadcast") = true
  · simpa [handleMessage, hguard] using h
  cases hcs : st.clientStates.get enterpriseId with
  | none => simpa [handleMessage, hguard, hcs] using h
  | some cs =>
  cases hc : st.clients.get enterpriseId with
  | none => simpa [handleMessage, hguard, hcs, hc] using h
  | some cl =>
  have hset : ∀ cs' : ClientState,
      SameKeys { st with clientStates := st.clientStates.set enterpriseId cs' } := by
    intro cs' e
    by_cases he : e = enterpriseId
    · subst he
      simp [Store.get_set, hc]
    · simpa [Store.get_set, he] using h e
  by_cases hcond : (((cs.userStates.get msg.msgFrom).getD UserChatState.initial).messageCount == 0
      || (cs.endingFlags.get msg.msgFrom).getD false) = true
  · cases hp : db.promptFindFirst enterpriseId with
    | none => simpa [handleMessage, hguard, hcs, hc, hcond, hp] using hset _
    | some prompt => simpa [handleMessage, hguard, hcs, hc, hcond, hp] using hset _
  · cases hr : db.messagesFindFirst enterpriseId msg.body with
    | none =>
      cases hl : ((cs.userStates.get msg.msgFrom).getD UserChatState.initial).lastMessageBody with
      | some s => simpa [handleMessage, hguard, hcs, hc, hcond, hr, hl] using hset _
      | none => simpa [handleMessage, hguard, hcs, hc, hcond, hr, hl] using hset _
    | some reply => simpa [handleMessage, hguard, hcs, hc, hcond, hr] using hset _

theorem sameKeys_applyOp (st : BotState) (op : Op) (h : SameKeys st) :
    SameKeys (applyOp st op) := by
  cases op with
  | init enterpriseId initOk => exact sameKeys_initializeClient st enterpriseId initOk h
  | message db enterpriseId msg => exact sameKeys_handleMessage db st enterpriseId msg h
  | ready enterpriseId => exact sameKeys_onReady st enterpriseId h
  | qr enterpriseId payload => exact h
  | disconnected enterpriseId destroyOk =>
    exact sameKeys_disconnectClient st enterpriseId destroyOk h
  | authFailure enterpriseId destroyOk =>
    exact sameKeys_disconnectClient st enterpriseId destroyOk h
  | disconnect enterpriseId destroyOk =>
    exact sameKeys_disconnectClient st enterpriseId destroyOk h

theorem sameKeys_runOps (ops : List Op) : SameKeys (runOps ops) := by
  suffices hgen : ∀ st, SameKeys st → SameKeys (ops.foldl applyOp st) from
    hgen BotState.initial sameKeys_initial
  induction ops with
  | nil => exact fun st h => h
  | cons op rest ih => exact fun st h => ih (applyOp st op) (sameKeys_applyOp st op h)

/-- C10: in every state the service can reach by any sequence of
operations — each completed `initializeClient` (success or failure),
`handleMessage`, callback and `disconnectClient` — a tenant has a client
handle entry exactly when it has a conversation-state container entry. -/
theorem C10_session_and_state_keys_aligned (ops : List Op) (enterpriseId : String) :
    ((runOps ops).clients.get enterpriseId).isSome
      = ((runOps ops).clientStates.get enterpriseId).isSome :=
  sameKeys_runOps ops enterpriseId

end TriggerBot
